import Mathlib

/-
Verification of the streaming chat front-end (src/main.py): the stream
accumulator in `run_agent`, the status state machine `update_status`, the
history replayer `paint_history`, and the vector-store reconciler
`ensure_vector_store`, shallowly embedded as pure Lean functions.
-/

namespace ChatClone

/-! ## Dollar escaping

Python `s.replace("$", "\$")` (note: `"\$"` in Python is the two characters
backslash, dollar). Used in `run_agent` (line 298) and `paint_history`
(line 186). -/

def dollarEscape (s : String) : String :=
  ⟨s.data.foldr (fun c acc => if c = '$' then '\\' :: '$' :: acc else c :: acc) []⟩

/-! ## Base64 decoding (Python `base64.b64decode`)

`paint_history` decodes `image_generation_call` results and `run_agent`
decodes `partial_image_b64` payloads with it. Four input characters yield
up to three bytes; `=` padding truncates the group. -/

def b64Val (c : Char) : Nat :=
  if 'A' ≤ c ∧ c ≤ 'Z' then c.toNat - 'A'.toNat
  else if 'a' ≤ c ∧ c ≤ 'z' then c.toNat - 'a'.toNat + 26
  else if '0' ≤ c ∧ c ≤ '9' then c.toNat - '0'.toNat + 52
  else if c = '+' then 62
  else if c = '/' then 63
  else 0

def b64Group (c1 c2 c3 c4 : Char) : List Nat :=
  let n := b64Val c1 * 262144 + b64Val c2 * 4096 + b64Val c3 * 64 + b64Val c4
  if c3 = '=' then [n / 65536 % 256]
  else if c4 = '=' then [n / 65536 % 256, n / 256 % 256]
  else [n / 65536 % 256, n / 256 % 256, n % 256]

def b64decodeList : List Char → List Nat
  | c1 :: c2 :: c3 :: c4 :: rest => b64Group c1 c2 c3 c4 ++ b64decodeList rest
  | _ => []

def b64decode (s : String) : List Nat :=
  b64decodeList s.data

/-! ## Resource reconciler (`ensure_vector_store`, lines 50-71)

The remote backend is modelled by the set of vector-store ids that exist
(`live`), reachability flags for the two kinds of remote call, and the id
the next successful `create` call would issue.  `retrieve` models
`client.vector_stores.retrieve`: it succeeds (returns `true`) iff the
backend is reachable and the id exists; any failure — not-found, wrong
project, network outage — raises, which the source catches uniformly.
`create` models `client.vector_stores.create`; its exception is NOT caught
in the source, so it is an `Except`. -/

def VECTOR_STORE_NAME : String := "chatgpt-clone-store"

def DEFAULT_VECTOR_STORE_ID : String := "vs_68a0815f62388191a9c3701ceb237234"

structure Backend where
  live : List String
  reachableProbe : Bool
  reachableCreate : Bool
  fresh : String
deriving DecidableEq

def retrieve (b : Backend) (id : String) : Bool :=
  b.reachableProbe && decide (id ∈ b.live)

def create (b : Backend) : Except Unit (String × Backend) :=
  if b.reachableCreate then
    Except.ok (b.fresh, { b with live := b.fresh :: b.live })
  else
    Except.error ()

/-- The `for cand in candidates: if cand:` loop of `ensure_vector_store`
(lines 57-66).  Returns the first candidate whose `retrieve` succeeds
(if any) together with the list of ids actually probed, in order.
`none` candidates and empty strings are falsy in Python and skipped. -/
def probeLoop (b : Backend) : List (Option String) → Option String × List String
  | [] => (none, [])
  | none :: rest => probeLoop b rest
  | some c :: rest =>
    if c = "" then probeLoop b rest
    else if retrieve b c then (some c, [c])
    else
      let r := probeLoop b rest
      (r.1, c :: r.2)

/-- Result of one `ensure_vector_store` call: the returned id (or the
propagated exception), the updated session-remembered id
(`st.session_state["VECTOR_STORE_ID"]`), the updated backend, the ids
probed in order, and how many stores were created (0 or 1). -/
structure EnsureResult where
  result : Except Unit String
  remembered : Option String
  backend : Backend
  probed : List String
  created : Nat

/-- `ensure_vector_store` (lines 50-71): candidates are the
session-remembered id followed by `DEFAULT_VECTOR_STORE_ID`; the first
candidate that retrieves successfully is remembered and returned; probe
exceptions are swallowed (line 64-66); if no candidate resolves, a new
store is created (line 69) — this call's exception, if any, propagates. -/
def ensure_vector_store (remembered : Option String) (b : Backend) : EnsureResult :=
  let candidates : List (Option String) := [remembered, some DEFAULT_VECTOR_STORE_ID]
  match probeLoop b candidates with
  | (some c, probed) =>
    { result := Except.ok c, remembered := some c, backend := b
      probed := probed, created := 0 }
  | (none, probed) =>
    match create b with
    | Except.ok (id, b2) =>
      { result := Except.ok id, remembered := some id, backend := b2
        probed := probed, created := 1 }
    | Except.error e =>
      { result := Except.error e, remembered := remembered, backend := b
        probed := probed, created := 0 }

/-! ## App-level wiring of the reconciler

At module initialization (line 74) `VECTOR_STORE_ID = ensure_vector_store()`
runs once, and the agent — including its `FileSearchTool` configured with
`vector_store_ids=[VECTOR_STORE_ID]` (lines 106-111) — is constructed once
and cached in `st.session_state` (line 95).  `run_agent` re-runs
`vs_id = ensure_vector_store()` before streaming (line 279), but that
return value is never passed to the cached tool. -/

structure AppState where
  remembered : Option String
  fileSearchToolId : String
  backend : Backend
deriving DecidableEq

/-- Module initialization (lines 74, 95-139): ensure a store, remember it,
and bake the returned id into the `FileSearchTool` of the cached agent.
`none` models the module crashing on a propagated exception. -/
def appInit (b : Backend) : Option AppState :=
  let r := ensure_vector_store none b
  match r.result with
  | Except.ok id =>
    some { remembered := r.remembered, fileSearchToolId := id, backend := r.backend }
  | Except.error _ => none

/-- The prelude of `run_agent` (line 279): `vs_id = ensure_vector_store()`.
The session-remembered id and the backend are updated; the cached agent's
`FileSearchTool` id is not. -/
def runAgentPrelude (s : AppState) : Option AppState :=
  let r := ensure_vector_store s.remembered s.backend
  match r.result with
  | Except.ok _ =>
    some { remembered := r.remembered, fileSearchToolId := s.fileSearchToolId
           backend := r.backend }
  | Except.error _ => none

/-- Out-of-band deletion of a vector store by another process/session. -/
def deleteStore (s : AppState) (id : String) : AppState :=
  { s with backend := { s.backend with live := s.backend.live.erase id } }

/-! ## Status state machine (`update_status`, lines 226-250) -/

/-- The `status_messages` dict (lines 227-247): a partial map from event
tag to `(label, state)`. -/
def status_messages (tag : String) : Option (String × String) :=
  if tag = "response.web_search_call.completed" then some ("✅ Web search completed.", "complete")
  else if tag = "response.web_search_call.in_progress" then some ("🔍 Starting web search...", "running")
  else if tag = "response.web_search_call.searching" then some ("🔍 Web search in progress...", "running")
  else if tag = "response.file_search_call.completed" then some ("✅ File search completed.", "complete")
  else if tag = "response.file_search_call.in_progress" then some ("🗂️ Starting file search...", "running")
  else if tag = "response.file_search_call.searching" then some ("🗂️ File search in progress...", "running")
  else if tag = "response.image_generation_call.generating" then some ("🎨 Drawing image...", "running")
  else if tag = "response.image_generation_call.in_progress" then some ("🎨 Drawing image...", "running")
  else if tag = "response.code_interpreter_call_code.done" then some ("🤖 Ran code.", "complete")
  else if tag = "response.code_interpreter_call.completed" then some ("🤖 Ran code.", "complete")
  else if tag = "response.code_interpreter_call.in_progress" then some ("🤖 Running code...", "complete")
  else if tag = "response.code_interpreter_call.interpreting" then some ("🤖 Running code...", "complete")
  else if tag = "response.mcp_call.completed" then some ("⚒️ Called MCP tool", "complete")
  else if tag = "response.mcp_call.failed" then some ("⚒️ Error calling MCP tool", "complete")
  else if tag = "response.mcp_call.in_progress" then some ("⚒️ Calling MCP tool...", "running")
  else if tag = "response.mcp_list_tools.completed" then some ("⚒️ Listed MCP tools", "complete")
  else if tag = "response.mcp_list_tools.failed" then some ("⚒️ Error listing MCP tools", "complete")
  else if tag = "response.mcp_list_tools.in_progress" then some ("⚒️ Listing MCP tools", "running")
  else if tag = "response.completed" then some (" ", "complete")
  else none

/-- The keys of `status_messages`, in source order. -/
def recognizedStatusTags : List String :=
  [ "response.web_search_call.completed"
  , "response.web_search_call.in_progress"
  , "response.web_search_call.searching"
  , "response.file_search_call.completed"
  , "response.file_search_call.in_progress"
  , "response.file_search_call.searching"
  , "response.image_generation_call.generating"
  , "response.image_generation_call.in_progress"
  , "response.code_interpreter_call_code.done"
  , "response.code_interpreter_call.completed"
  , "response.code_interpreter_call.in_progress"
  , "response.code_interpreter_call.interpreting"
  , "response.mcp_call.completed"
  , "response.mcp_call.failed"
  , "response.mcp_call.in_progress"
  , "response.mcp_list_tools.completed"
  , "response.mcp_list_tools.failed"
  , "response.mcp_list_tools.in_progress"
  , "response.completed" ]

/-- `update_status` (lines 248-250): `if event in status_messages:
status_container.update(label, state)`; otherwise the status widget is
left unchanged. -/
def update_status (status : String × String) (tag : String) : String × String :=
  match status_messages tag with
  | some ls => ls
  | none => status

/-! ## Stream accumulator (`run_agent`, lines 261-308) -/

/-- `event.data` of a raw response event: its `type` tag, its `delta`
(text or code deltas) and its `partial_image_b64` payload. -/
structure RawData where
  type : String
  delta : String
  partial_image_b64 : String
deriving DecidableEq

/-- A stream event: `event.type == "raw_response_event"` carries data;
every other `event.type` is ignored by the loop body. -/
inductive StreamEvent where
  | raw (data : RawData)
  | other
deriving DecidableEq

/-- A render operation emitted to one of the three placeholders of the
turn's chat bubble. -/
inductive RenderOp where
  | setText (s : String)
  | setCode (s : String)
  | setImage (bytes : List Nat)
deriving DecidableEq

/-- The per-turn accumulation state: the cumulative `response` and
`code_response` strings (lines 270-271), the latest partial image shown,
and the status widget's `(label, state)`. -/
structure TurnState where
  response : String
  code_response : String
  image : Option (List Nat)
  status : String × String
deriving DecidableEq

/-- Fresh state at the top of `run_agent`: `response = ""`,
`code_response = ""`, no image yet, and the status widget created as
`st.status("⏳")` (whose default state is `running`). -/
def initTurnState : TurnState :=
  { response := "", code_response := "", image := none, status := ("⏳", "running") }

/-- One iteration of the `async for event in stream.stream_events()` body
(lines 289-308).  A non-raw event does nothing.  For a raw event:
`update_status` runs on `event.data.type`; then the three delta branches.
(The source has an `if` for the text delta followed by a separate
`if/elif` for code delta / partial image; the three tags are distinct
string constants, so the flat chain below is equivalent.) -/
def stepEvent (s : TurnState) (e : StreamEvent) : TurnState × List RenderOp :=
  match e with
  | StreamEvent.other => (s, [])
  | StreamEvent.raw d =>
    let s1 : TurnState := { s with status := update_status s.status d.type }
    if d.type = "response.output_text.delta" then
      let resp := s1.response ++ d.delta
      ({ s1 with response := resp }, [RenderOp.setText (dollarEscape resp)])
    else if d.type = "response.code_interpreter_call_code.delta" then
      let code := s1.code_response ++ d.delta
      ({ s1 with code_response := code }, [RenderOp.setCode code])
    else if d.type = "response.image_generation_call.partial_image" then
      let img := b64decode d.partial_image_b64
      ({ s1 with image := some img }, [RenderOp.setImage img])
    else
      (s1, [])

/-- Fold `stepEvent` over the event stream, collecting emitted render
operations in order. -/
def processEvents (s : TurnState) : List StreamEvent → TurnState × List RenderOp
  | [] => (s, [])
  | e :: es =>
    let r1 := stepEvent s e
    let r2 := processEvents r1.1 es
    (r2.1, r1.2 ++ r2.2)

/-- One whole turn: `run_agent` constructs fresh placeholders and fresh
accumulation variables, then pumps the event stream. -/
def run_agent (events : List StreamEvent) : TurnState × List RenderOp :=
  processEvents initTurnState events

/-! ## History replayer (`paint_history`, lines 164-216) -/

/-- One element of a list-shaped `content` field: an optional `image_url`
(user image parts) and an optional `text` (assistant message blocks). -/
structure ContentPart where
  image_url : Option String := none
  text : Option String := none
deriving DecidableEq

/-- The `content` field of a stored message: either a plain string or a
list of parts. -/
inductive MsgContent where
  | str (s : String)
  | parts (ps : List ContentPart)
deriving DecidableEq

/-- A stored conversation item, as the loosely-typed dict the session DB
returns; absent keys are `none`. -/
structure HistMessage where
  role : Option String := none
  content : Option MsgContent := none
  type : Option String := none
  result : Option String := none
  code : Option String := none
  server_label : Option String := none
  name : Option String := none
  arguments : Option String := none
deriving DecidableEq

/-- A render operation emitted while replaying history: a chat bubble of
the given role showing text, an image by url, decoded image bytes, or a
code block. -/
inductive HistOp where
  | showText (role : String) (text : String)
  | showImage (role : String) (src : String)
  | showImageBytes (role : String) (bytes : List Nat)
  | showCode (role : String) (code : String)
deriving DecidableEq

/-- The item `type` tags `paint_history` renders in its tool-call branch
(lines 189-213). -/
def renderedItemTypes : List String :=
  [ "web_search_call", "file_search_call", "image_generation_call"
  , "code_interpreter_call", "mcp_list_tools", "mcp_call" ]

/-- The body of the `for message in messages` loop of `paint_history`
(lines 167-213): first the `"role" in message` branch (user text, user
image parts, assistant message with `$` escaping), then, independently,
the `"type" in message` branch (tool-call records; unknown types render
nothing). -/
def paintItem (m : HistMessage) : List HistOp :=
  let roleOps :=
    match m.role with
    | none => []
    | some r =>
      if r = "user" then
        match m.content with
        | some (MsgContent.str s) => [HistOp.showText r s]
        | some (MsgContent.parts ps) =>
          ps.filterMap (fun p => p.image_url.map (fun u => HistOp.showImage r u))
        | none => []
      else
        if m.type = some "message" then
          match m.content with
          | some (MsgContent.parts (p :: _)) =>
            match p.text with
            | some t => [HistOp.showText r (dollarEscape t)]
            | none => []
          | _ => []
        else []
  let typeOps :=
    match m.type with
    | none => []
    | some t =>
      if t = "web_search_call" then [HistOp.showText "ai" "🔍 Searched the web..."]
      else if t = "file_search_call" then [HistOp.showText "ai" "🗂️ Searched your files..."]
      else if t = "image_generation_call" then
        match m.result with
        | some res => [HistOp.showImageBytes "ai" (b64decode res)]
        | none => []
      else if t = "code_interpreter_call" then
        match m.code with
        | some c => [HistOp.showCode "ai" c]
        | none => []
      else if t = "mcp_list_tools" then
        match m.server_label with
        | some sl => [HistOp.showText "ai" ("Listed " ++ sl ++ "\x27s tools")]
        | none => []
      else if t = "mcp_call" then
        match m.server_label, m.name, m.arguments with
        | some sl, some nm, some args =>
          [HistOp.showText "ai" ("Called " ++ sl ++ "\x27s " ++ nm ++ " with args " ++ args)]
        | _, _, _ => []
      else []
  roleOps ++ typeOps

/-- `paint_history`: replay the whole stored history in order. -/
def paint_history (msgs : List HistMessage) : List HistOp :=
  (msgs.map paintItem).flatten

/-! ## Concrete scenarios used by the theorems below -/

/-- The literal event sequence of the spec's stream-accumulator test:
status(in_progress), text deltas "Hel" and "lo", status(completed). -/
def helloEvents : List StreamEvent :=
  [ StreamEvent.raw ⟨"response.web_search_call.in_progress", "", ""⟩
  , StreamEvent.raw ⟨"response.output_text.delta", "Hel", ""⟩
  , StreamEvent.raw ⟨"response.output_text.delta", "lo", ""⟩
  , StreamEvent.raw ⟨"response.web_search_call.completed", "", ""⟩ ]

/-- A backend that is unreachable while the probes run but reachable again
by the time `create` is called; the remembered id "vs_live" does exist. -/
def probeOutageBackend : Backend :=
  { live := ["vs_live"], reachableProbe := false, reachableCreate := true
    fresh := "vs_created_fresh" }

/-- A backend that is unreachable for both probes and creation. -/
def deadBackend : Backend :=
  { live := [], reachableProbe := false, reachableCreate := false, fresh := "vs_unused" }

/-- A reachable backend in which only the hardcoded fallback id exists. -/
def fallbackLiveBackend : Backend :=
  { live := [DEFAULT_VECTOR_STORE_ID], reachableProbe := true, reachableCreate := true
    fresh := "vs_x" }

/-- A reachable backend in which no candidate id exists. -/
def emptyBackend : Backend :=
  { live := [], reachableProbe := true, reachableCreate := true, fresh := "vs_new_1" }

/-- Startup backend for the stale-tool trace: the hardcoded id exists at
module initialization. -/
def startupBackend : Backend :=
  { live := [DEFAULT_VECTOR_STORE_ID], reachableProbe := true, reachableCreate := true
    fresh := "vs_brand_new" }

/-- Trace: the app initializes (baking the startup id into the
`FileSearchTool`), the startup store is deleted out-of-band, then a user
turn begins and `run_agent` re-runs `ensure_vector_store`. -/
def startupTurn : Option AppState :=
  (appInit startupBackend).bind fun s => runAgentPrelude (deleteStore s DEFAULT_VECTOR_STORE_ID)

/-! ## Theorems -/

/-- Claim C1: feeding `[status(in_progress), text_delta("Hel"),
text_delta("lo"), status(completed)]` to the stream accumulator emits
exactly `SetText("Hel")` then `SetText("Hello")` — each carrying the full
cumulative buffer — and the status buffer ends at the completed tag's
`(label, "complete")` pair. -/
theorem run_agent_accumulates_text_and_status :
    (run_agent helloEvents).2 = [RenderOp.setText "Hel", RenderOp.setText "Hello"]
    ∧ (run_agent helloEvents).1.status = ("✅ Web search completed.", "complete")
    ∧ (run_agent helloEvents).1.response = "Hello" := by
  decide

/-- Claim C2, counterexample: with the backend unreachable during the
probes (`reachableProbe = false`) but reachable again at `create`,
`ensure_vector_store` does NOT propagate an error — it silently falls
back to creating a fresh store, even though the remembered id "vs_live"
actually exists. The probe-time outage is swallowed by the
`except Exception: pass` at lines 64-66 of src/main.py. -/
theorem ensure_vector_store_probe_outage_silently_creates :
    probeOutageBackend.reachableProbe = false
    ∧ "vs_live" ∈ probeOutageBackend.live
    ∧ (ensure_vector_store (some "vs_live") probeOutageBackend).result
        = Except.ok "vs_created_fresh"
    ∧ (ensure_vector_store (some "vs_live") probeOutageBackend).created = 1 :=
  ⟨rfl, by decide, rfl, rfl⟩

/-- Claim C2 as amended: when the backend is unreachable throughout — for
the probes and for the create call — `ensure_vector_store` propagates the
create call's error to the caller, creates nothing, and fabricates no id
(remembered id and backend are unchanged); but unreachability during a
probe alone is silently treated like not-found and falls through to
creation. -/
theorem ensure_vector_store_unreachable_propagates (rem : Option String) (b : Backend)
    (hpr : b.reachableProbe = false) (hcr : b.reachableCreate = false) :
    (ensure_vector_store rem b).result = Except.error ()
    ∧ (ensure_vector_store rem b).created = 0
    ∧ (ensure_vector_store rem b).remembered = rem
    ∧ (ensure_vector_store rem b).backend = b := by
  have hr : ∀ id, retrieve b id = false := fun id => by simp [retrieve, hpr]
  have hdne : DEFAULT_VECTOR_STORE_ID ≠ "" := by decide
  cases rem with
  | none =>
    simp [ensure_vector_store, probeLoop, create, hcr, hr, hdne]
  | some c =>
    by_cases hc : c = "" <;>
      simp [ensure_vector_store, probeLoop, create, hcr, hr, hdne, hc]

/-- Witness for the amended claim C2 at the concrete dead backend. -/
theorem ensure_vector_store_unreachable_propagates_witness :
    deadBackend.reachableProbe = false
    ∧ deadBackend.reachableCreate = false
    ∧ (ensure_vector_store (some "vs_old") deadBackend).result = Except.error ()
    ∧ (ensure_vector_store (some "vs_old") deadBackend).created = 0
    ∧ (ensure_vector_store (some "vs_old") deadBackend).remembered = some "vs_old"
    ∧ (ensure_vector_store (some "vs_old") deadBackend).backend = deadBackend :=
  ⟨rfl, rfl,
    (ensure_vector_store_unreachable_propagates (some "vs_old") deadBackend rfl rfl).1,
    (ensure_vector_store_unreachable_propagates (some "vs_old") deadBackend rfl rfl).2.1,
    (ensure_vector_store_unreachable_propagates (some "vs_old") deadBackend rfl rfl).2.2.1,
    (ensure_vector_store_unreachable_propagates (some "vs_old") deadBackend rfl rfl).2.2.2⟩

/-- Claim C3: with a dead remembered id and a live fallback,
`ensure_vector_store` probes the candidates in order (remembered first,
then the hardcoded fallback), returns the fallback, and promotes it to
the remembered id; the subsequent call probes only the promoted id — the
dead id is not re-probed — and creates nothing. -/
theorem ensure_vector_store_promotes_live_fallback (dead : String) (b : Backend)
    (hpr : b.reachableProbe = true)
    (hdead : dead ∉ b.live)
    (hdef : DEFAULT_VECTOR_STORE_ID ∈ b.live)
    (hne : dead ≠ "") :
    (ensure_vector_store (some dead) b).probed = [dead, DEFAULT_VECTOR_STORE_ID]
    ∧ (ensure_vector_store (some dead) b).result = Except.ok DEFAULT_VECTOR_STORE_ID
    ∧ (ensure_vector_store (some dead) b).remembered = some DEFAULT_VECTOR_STORE_ID
    ∧ (ensure_vector_store (some dead) b).created = 0
    ∧ (ensure_vector_store (ensure_vector_store (some dead) b).remembered
        (ensure_vector_store (some dead) b).backend).result
        = Except.ok DEFAULT_VECTOR_STORE_ID
    ∧ (ensure_vector_store (ensure_vector_store (some dead) b).remembered
        (ensure_vector_store (some dead) b).backend).probed = [DEFAULT_VECTOR_STORE_ID]
    ∧ dead ∉ (ensure_vector_store (ensure_vector_store (some dead) b).remembered
        (ensure_vector_store (some dead) b).backend).probed
    ∧ (ensure_vector_store (ensure_vector_store (some dead) b).remembered
        (ensure_vector_store (some dead) b).backend).created = 0 := by
  have hdne : DEFAULT_VECTOR_STORE_ID ≠ "" := by decide
  have h1 : retrieve b dead = false := by simp [retrieve, hdead]
  have h2 : retrieve b DEFAULT_VECTOR_STORE_ID = true := by simp [retrieve, hpr, hdef]
  have hdd : dead ≠ DEFAULT_VECTOR_STORE_ID := fun h => hdead (h ▸ hdef)
  simp [ensure_vector_store, probeLoop, hne, hdne, h1, h2, hdd]

/-- Witness for claim C3: dead remembered id "vs_dead", fallback live. -/
theorem ensure_vector_store_promotes_live_fallback_witness :
    fallbackLiveBackend.reachableProbe = true
    ∧ "vs_dead" ∉ fallbackLiveBackend.live
    ∧ DEFAULT_VECTOR_STORE_ID ∈ fallbackLiveBackend.live
    ∧ "vs_dead" ≠ ""
    ∧ (ensure_vector_store (some "vs_dead") fallbackLiveBackend).probed
        = ["vs_dead", DEFAULT_VECTOR_STORE_ID]
    ∧ (ensure_vector_store (some "vs_dead") fallbackLiveBackend).result
        = Except.ok DEFAULT_VECTOR_STORE_ID
    ∧ (ensure_vector_store (ensure_vector_store (some "vs_dead") fallbackLiveBackend).remembered
        (ensure_vector_store (some "vs_dead") fallbackLiveBackend).backend).probed
        = [DEFAULT_VECTOR_STORE_ID] :=
  ⟨rfl, by decide, by decide, by decide,
    (ensure_vector_store_promotes_live_fallback "vs_dead" fallbackLiveBackend rfl
      (by decide) (by decide) (by decide)).1,
    (ensure_vector_store_promotes_live_fallback "vs_dead" fallbackLiveBackend rfl
      (by decide) (by decide) (by decide)).2.1,
    (ensure_vector_store_promotes_live_fallback "vs_dead" fallbackLiveBackend rfl
      (by decide) (by decide) (by decide)).2.2.2.2.2.1⟩

/-- Claim C4: with no remembered id and every candidate probe failing,
`ensure_vector_store` creates exactly one store and remembers its id; the
second call in the same process session probes the remembered id,
finds it (creation added it to the backend), returns it, and creates
nothing further. -/
theorem ensure_vector_store_creates_once (b : Backend)
    (hpr : b.reachableProbe = true)
    (hcr : b.reachableCreate = true)
    (hdef : DEFAULT_VECTOR_STORE_ID ∉ b.live)
    (hfne : b.fresh ≠ "") :
    (ensure_vector_store none b).created = 1
    ∧ (ensure_vector_store none b).result = Except.ok b.fresh
    ∧ (ensure_vector_store none b).remembered = some b.fresh
    ∧ (ensure_vector_store (ensure_vector_store none b).remembered
        (ensure_vector_store none b).backend).created = 0
    ∧ (ensure_vector_store (ensure_vector_store none b).remembered
        (ensure_vector_store none b).backend).result = Except.ok b.fresh
    ∧ (ensure_vector_store (ensure_vector_store none b).remembered
        (ensure_vector_store none b).backend).remembered = some b.fresh := by
  have hdne : DEFAULT_VECTOR_STORE_ID ≠ "" := by decide
  have h1 : retrieve b DEFAULT_VECTOR_STORE_ID = false := by simp [retrieve, hdef]
  simp [ensure_vector_store, probeLoop, create, retrieve, hpr, hcr, hdne, hfne, h1, hdef]

/-- Witness for claim C4 on a reachable backend holding no stores. -/
theorem ensure_vector_store_creates_once_witness :
    emptyBackend.reachableProbe = true
    ∧ emptyBackend.reachableCreate = true
    ∧ DEFAULT_VECTOR_STORE_ID ∉ emptyBackend.live
    ∧ emptyBackend.fresh ≠ ""
    ∧ (ensure_vector_store none emptyBackend).created = 1
    ∧ (ensure_vector_store (ensure_vector_store none emptyBackend).remembered
        (ensure_vector_store none emptyBackend).backend).created = 0 :=
  ⟨rfl, rfl, by decide, by decide,
    (ensure_vector_store_creates_once emptyBackend rfl rfl (by decide) (by decide)).1,
    (ensure_vector_store_creates_once emptyBackend rfl rfl (by decide) (by decide)).2.2.2.1⟩

/-- Claim C5, failing trace: the store that existed at module
initialization is deleted out-of-band; on the next user turn `run_agent`
does re-run `ensure_vector_store` (which promotes a freshly created live
id into the session), but the cached agent's `FileSearchTool` still
carries the startup-time id, which no longer exists in the backend at
time of use — the `vs_id` computed at line 279 of src/main.py is never
wired into the tool configured at lines 106-111. -/
theorem file_search_tool_uses_stale_id :
    (startupTurn.map fun s => s.backend.live.contains s.fileSearchToolId) = some false
    ∧ (startupTurn.map fun s => s.fileSearchToolId) = some DEFAULT_VECTOR_STORE_ID
    ∧ (startupTurn.map fun s => s.remembered) = some (some "vs_brand_new")
    ∧ (startupTurn.map fun s => s.backend.live.contains "vs_brand_new") = some true
    ∧ ((appInit startupBackend).map fun s => s.backend.live.contains s.fileSearchToolId)
        = some true := by
  decide

/-- Claim C6: dollar signs are backslash-escaped before reaching the
render sink — a live text delta is rendered as the escaped cumulative
buffer (so "$5" shows as "\$5"), and a replayed assistant message bubble
shows its text escaped the same way. -/
theorem dollar_signs_escaped_before_render :
    (∀ (s : TurnState) (d : String),
      (stepEvent s (StreamEvent.raw ⟨"response.output_text.delta", d, ""⟩)).2
        = [RenderOp.setText (dollarEscape (s.response ++ d))])
    ∧ dollarEscape "$5" = "\\$5"
    ∧ (run_agent [StreamEvent.raw ⟨"response.output_text.delta", "$5", ""⟩]).2
        = [RenderOp.setText "\\$5"]
    ∧ (∀ (t : String) (ps : List ContentPart),
      paintItem { role := some "assistant", type := some "message"
                  content := some (MsgContent.parts ({ image_url := none, text := some t } :: ps)) }
        = [HistOp.showText "assistant" (dollarEscape t)]) :=
  ⟨fun _ _ => rfl, by decide, by decide, fun _ _ => rfl⟩

/-- Claim C7: two consecutive partial-image events, from any accumulator
state, emit one `SetImage` per event, and the final image buffer holds
exactly the decoded bytes of the second payload — replacement, not
accumulation. -/
theorem partial_images_replace_not_accumulate (p₁ p₂ : String) (s : TurnState) :
    (processEvents s
      [ StreamEvent.raw ⟨"response.image_generation_call.partial_image", "", p₁⟩
      , StreamEvent.raw ⟨"response.image_generation_call.partial_image", "", p₂⟩]).1.image
      = some (b64decode p₂)
    ∧ (processEvents s
      [ StreamEvent.raw ⟨"response.image_generation_call.partial_image", "", p₁⟩
      , StreamEvent.raw ⟨"response.image_generation_call.partial_image", "", p₂⟩]).2
      = [RenderOp.setImage (b64decode p₁), RenderOp.setImage (b64decode p₂)] :=
  ⟨rfl, rfl⟩

/-- Claim C8: a status event whose tag is outside the closed set of
recognized status-transition tags leaves the status buffer unchanged,
and a stored item with no role whose type matches no rendering rule is
skipped outright during replay — neither is an error. -/
theorem unknown_tags_and_kinds_ignored :
    (∀ (st : String × String) (tag : String), tag ∉ recognizedStatusTags →
      update_status st tag = st)
    ∧ (∀ (m : HistMessage) (t : String), m.role = none → m.type = some t →
      t ∉ renderedItemTypes → paintItem m = []) := by
  constructor
  · intro st tag h
    simp only [recognizedStatusTags, List.mem_cons, List.mem_singleton, not_or] at h
    obtain ⟨h1, h2, h3, h4, h5, h6, h7, h8, h9, h10, h11, h12, h13, h14, h15, h16, h17,
      h18, h19⟩ := h
    simp [update_status, status_messages, h1, h2, h3, h4, h5, h6, h7, h8, h9, h10, h11,
      h12, h13, h14, h15, h16, h17, h18, h19]
  · intro m t hrole htype h
    simp only [renderedItemTypes, List.mem_cons, List.mem_singleton, not_or] at h
    obtain ⟨h1, h2, h3, h4, h5, h6⟩ := h
    simp [paintItem, hrole, htype, h1, h2, h3, h4, h5, h6]

/-- Witness for claim C8 at the unrecognized tag "response.created" and
the unrendered item type "reasoning". -/
theorem unknown_tags_and_kinds_ignored_witness :
    "response.created" ∉ recognizedStatusTags
    ∧ "reasoning" ∉ renderedItemTypes
    ∧ update_status ("⏳", "running") "response.created" = ("⏳", "running")
    ∧ paintItem { type := some "reasoning" } = [] :=
  ⟨by decide, by decide,
    unknown_tags_and_kinds_ignored.1 ("⏳", "running") "response.created" (by decide),
    unknown_tags_and_kinds_ignored.2 { type := some "reasoning" } "reasoning" rfl rfl
      (by decide)⟩

/-- Claim C9: `run_agent` runs every turn from the freshly constructed
accumulator state — empty text and code buffers, no image, the initial
status placeholder — so no turn inherits a prior turn's buffers; and each
event step only extends the text and code buffers and only replaces (or
keeps) the image buffer, never shrinking any of them. -/
theorem turn_buffers_fresh_and_monotone :
    (∀ events, run_agent events = processEvents initTurnState events)
    ∧ initTurnState.response = ""
    ∧ initTurnState.code_response = ""
    ∧ initTurnState.image = none
    ∧ initTurnState.status = ("⏳", "running")
    ∧ (∀ (s : TurnState) (e : StreamEvent),
        ((stepEvent s e).1.response = s.response
          ∨ ∃ d, (stepEvent s e).1.response = s.response ++ d)
        ∧ ((stepEvent s e).1.code_response = s.code_response
          ∨ ∃ d, (stepEvent s e).1.code_response = s.code_response ++ d)
        ∧ ((stepEvent s e).1.image = s.image
          ∨ ∃ bs, (stepEvent s e).1.image = some bs)) := by
  refine ⟨fun _ => rfl, rfl, rfl, rfl, rfl, fun s e => ?_⟩
  cases e with
  | other => exact ⟨Or.inl rfl, Or.inl rfl, Or.inl rfl⟩
  | raw d =>
    simp only [stepEvent]
    split_ifs with h1 h2 h3
    · exact ⟨Or.inr ⟨d.delta, rfl⟩, Or.inl rfl, Or.inl rfl⟩
    · exact ⟨Or.inl rfl, Or.inr ⟨d.delta, rfl⟩, Or.inl rfl⟩
    · exact ⟨Or.inl rfl, Or.inl rfl, Or.inr ⟨b64decode d.partial_image_b64, rfl⟩⟩
    · exact ⟨Or.inl rfl, Or.inl rfl, Or.inl rfl⟩

/-- Claim C10: the status table maps both in-flight code-interpreter tags
to state "complete" (with label "🤖 Running code..."), so the status
widget shows a completed state while code interpretation is still in
progress. -/
theorem code_interpreter_progress_tags_marked_complete (st : String × String) :
    update_status st "response.code_interpreter_call.in_progress"
      = ("🤖 Running code...", "complete")
    ∧ update_status st "response.code_interpreter_call.interpreting"
      = ("🤖 Running code...", "complete") :=
  ⟨rfl, rfl⟩

end ChatClone
